import Mathlib

/-!
Shallow embedding of `dags/utils/dataproc.py`: the `DataProcHelper` class and
the three workflow builders `moz_dataproc_pyspark_runner`,
`moz_dataproc_jar_runner` and `moz_dataproc_scriptrunner`.

Python strings are Lean `String`; Python `None`-able parameters are `Option`;
Python dicts used as ordered mappings are association lists
(`List (String × String)`).  Raising `AirflowException` is modelled by the
builders returning `Except String Workflow` with the exception message in the
`.error` branch.  The two external collaborators touched during construction
(the AWS credential store behind `AwsHook(...).get_credentials()` and the GCP
connection hook providing `project_id`) are passed in explicitly as an `Ext`
record of functions, so that theorems can quantify over every possible
response of the external world.
-/

namespace Dataproc

/-- Python truthiness of an optional string: `None` and `""` are falsy. -/
def strTruthy : Option String → Bool
  | none => false
  | some s => s ≠ ""

/-- Python string formatting renders `None` as the string `"None"`; this is
how `.format(parent_dag_name, dag_name)` treats an absent parent name. -/
def pyFormatOpt : Option String → String
  | none => "None"
  | some s => s

/-- The `(access_key, secret_key, token)` triple returned by
`AwsHook(aws_conn_id).get_credentials()`; each component may be `None`. -/
structure Credentials where
  access_key : Option String
  secret_key : Option String
  token : Option String
deriving Repr, DecidableEq

/-- The external collaborators consulted while building a workflow:
`credStore` models `AwsHook(conn_id).get_credentials()` and `projectOf`
models `GoogleCloudBaseHook(gcp_conn_id=...).project_id`. -/
structure Ext where
  credStore : String → Credentials
  projectOf : String → String

/-- The fields stored by `DataProcHelper.__init__` (lines 20-53). -/
structure DataProcHelper where
  cluster_name : Option String
  num_workers : Nat
  image_version : String
  zone : String
  idle_delete_ttl : String
  auto_delete_ttl : String
  master_machine_type : String
  worker_machine_type : String
  num_preemptible_workers : Nat
  service_account : Option String
  artifact_bucket : String
  optional_components : List String
  install_component_gateway : Bool
  aws_conn_id : Option String
  gcp_conn_id : String
deriving Repr, DecidableEq

/-- The keyword arguments passed to `DataprocClusterCreateOperator`
(lines 69-92). -/
structure ClusterCreateTask where
  task_id : String
  cluster_name : Option String
  gcp_conn_id : String
  service_account : Option String
  project_id : String
  storage_bucket : String
  num_workers : Nat
  image_version : String
  properties : List (String × String)
  zone : String
  idle_delete_ttl : String
  auto_delete_ttl : String
  master_machine_type : String
  worker_machine_type : String
  num_preemptible_workers : Nat
  optional_components : List String
  install_component_gateway : Bool
  init_actions_uris : List String
  metadata : List (String × String)
deriving Repr, DecidableEq

/-- The keyword arguments passed to `DataprocClusterDeleteOperator`
(lines 98-102). -/
structure ClusterDeleteTask where
  task_id : String
  cluster_name : Option String
  gcp_conn_id : String
  project_id : String
deriving Repr, DecidableEq

/-- The keyword arguments passed to `DataProcPySparkOperator` (lines 216-223). -/
structure PySparkTask where
  task_id : String
  job_name : Option String
  cluster_name : String
  main : String
  arguments : Option (List String)
  gcp_conn_id : String
deriving Repr, DecidableEq

/-- The keyword arguments passed to `DataProcSparkOperator`
(lines 327-334 and 464-471). -/
structure SparkTask where
  cluster_name : String
  task_id : String
  job_name : Option String
  dataproc_spark_jars : List String
  main_class : String
  arguments : Option (List String)
  gcp_conn_id : String
deriving Repr, DecidableEq

/-- A task descriptor handed to the DAG: one of the four operator kinds. -/
inductive Task where
  | create (t : ClusterCreateTask)
  | runPySpark (t : PySparkTask)
  | runSpark (t : SparkTask)
  | delete (t : ClusterDeleteTask)
deriving Repr, DecidableEq

/-- The `task_id` of a task descriptor. -/
def Task.taskId : Task → String
  | .create t => t.task_id
  | .runPySpark t => t.task_id
  | .runSpark t => t.task_id
  | .delete t => t.task_id

/-- The DAG value returned by each builder: its name, `default_args`, its
tasks, and the ordering edges declared by `a >> b` (stored as
`(a.task_id, b.task_id)`). -/
structure Workflow where
  dag_name : String
  default_args : Option String
  tasks : List Task
  edges : List (String × String)
deriving Repr, DecidableEq

/-- Task ids of the declared predecessors of the task named `tid`. -/
def Workflow.predecessors (w : Workflow) (tid : String) : List String :=
  w.edges.filterMap fun e => if e.2 = tid then some e.1 else none

/-- The credential-derived hadoop properties built by the loop in
`create_cluster` (lines 60-67): each non-`None` component of the triple
becomes a `core:fs.s3a.<key>` entry, `None` components are skipped. -/
def s3aProperties (creds : Credentials) : List (String × String) :=
  ([("access.key", creds.access_key),
    ("secret.key", creds.secret_key),
    ("session.token", creds.token)] : List (String × Option String)).filterMap
    fun kv => kv.2.map fun v => ("core:fs.s3a." ++ kv.1, v)

/-- Model of `DataProcHelper.create_cluster` (lines 55-92): builds the
`DataprocClusterCreateOperator` descriptor.  The `properties` dict is filled
from the AWS credential triple only when `self.aws_conn_id` is truthy. -/
def DataProcHelper.create_cluster (h : DataProcHelper) (ext : Ext) :
    ClusterCreateTask :=
  let properties :=
    if strTruthy h.aws_conn_id then
      s3aProperties (ext.credStore (h.aws_conn_id.getD ""))
    else []
  { task_id := "create_dataproc_cluster"
    cluster_name := h.cluster_name
    gcp_conn_id := h.gcp_conn_id
    service_account := h.service_account
    project_id := ext.projectOf h.gcp_conn_id
    storage_bucket := "moz-fx-data-prod-dataproc-scratch"
    num_workers := h.num_workers
    image_version := h.image_version
    properties := properties
    zone := h.zone
    idle_delete_ttl := h.idle_delete_ttl
    auto_delete_ttl := h.auto_delete_ttl
    master_machine_type := h.master_machine_type
    worker_machine_type := h.worker_machine_type
    num_preemptible_workers := h.num_preemptible_workers
    optional_components := h.optional_components
    install_component_gateway := h.install_component_gateway
    init_actions_uris := ["gs://" ++ h.artifact_bucket ++ "/bootstrap/dataproc_init.sh"]
    metadata := [("gcs-connector-version", "1.9.16"),
                 ("bigquery-connector-version", "0.13.6")] }

/-- Model of `DataProcHelper.delete_cluster` (lines 94-102): builds the
`DataprocClusterDeleteOperator` descriptor. -/
def DataProcHelper.delete_cluster (h : DataProcHelper) (ext : Ext) :
    ClusterDeleteTask :=
  { task_id := "delete_dataproc_cluster"
    cluster_name := h.cluster_name
    gcp_conn_id := h.gcp_conn_id
    project_id := ext.projectOf h.gcp_conn_id }

/-- Model of Python `sep.join(pieces)`: pieces concatenated with `sep`
between consecutive pieces, the empty string for an empty list. -/
def pyJoin (sep : String) : List String → String
  | [] => ""
  | [x] => x
  | x :: y :: xs => x ++ sep ++ pyJoin sep (y :: xs)

/-- Model of `_format_envvar` (lines 343-345): space-join `key=value`
renderings of the mapping entries in iteration order; `None` behaves as the
empty mapping. -/
def _format_envvar (env : Option (List (String × String))) : String :=
  pyJoin " " ((env.getD []).map fun kv => kv.1 ++ "=" ++ kv.2)

/-- Parameters of `moz_dataproc_pyspark_runner` with the Python defaults
(lines 105-125). -/
structure PySparkRunnerParams where
  parent_dag_name : Option String := none
  dag_name : String := "run_pyspark_on_dataproc"
  default_args : Option String := none
  cluster_name : Option String := none
  num_workers : Nat := 2
  image_version : String := "1.4"
  zone : String := "us-west1-b"
  idle_delete_ttl : String := "10800"
  auto_delete_ttl : String := "21600"
  master_machine_type : String := "n1-standard-8"
  worker_machine_type : String := "n1-standard-4"
  num_preemptible_workers : Nat := 0
  service_account : Option String := none
  optional_components : List String := ["ANACONDA"]
  install_component_gateway : Bool := true
  python_driver_code : Option String := none
  py_args : Option (List String) := none
  job_name : Option String := none
  artifact_bucket : String := "moz-fx-data-prod-airflow-dataproc-artifacts"
  aws_conn_id : Option String := none
  gcp_conn_id : String := "google_cloud_airflow_dataproc"
deriving Repr, DecidableEq

/-- Parameters of `moz_dataproc_jar_runner` with the Python defaults
(lines 232-253). -/
structure JarRunnerParams where
  parent_dag_name : Option String := none
  dag_name : String := "run_script_on_dataproc"
  default_args : Option String := none
  cluster_name : Option String := none
  num_workers : Nat := 2
  image_version : String := "1.4"
  zone : String := "us-west1-b"
  idle_delete_ttl : String := "14400"
  auto_delete_ttl : String := "28800"
  master_machine_type : String := "n1-standard-8"
  worker_machine_type : String := "n1-standard-4"
  num_preemptible_workers : Nat := 0
  service_account : Option String := none
  optional_components : List String := ["ANACONDA"]
  install_component_gateway : Bool := true
  jar_urls : Option (List String) := none
  main_class : Option String := none
  jar_args : Option (List String) := none
  job_name : Option String := none
  artifact_bucket : String := "moz-fx-data-prod-airflow-dataproc-artifacts"
  aws_conn_id : Option String := none
  gcp_conn_id : String := "google_cloud_airflow_dataproc"
deriving Repr, DecidableEq

/-- Parameters of `moz_dataproc_scriptrunner` with the Python defaults
(lines 347-368). -/
structure ScriptRunnerParams where
  parent_dag_name : Option String := none
  dag_name : String := "run_script_on_dataproc"
  default_args : Option String := none
  cluster_name : Option String := none
  num_workers : Nat := 2
  image_version : String := "1.4"
  zone : String := "us-west1-b"
  idle_delete_ttl : String := "14400"
  auto_delete_ttl : String := "28800"
  master_machine_type : String := "n1-standard-8"
  worker_machine_type : String := "n1-standard-4"
  num_preemptible_workers : Nat := 0
  service_account : Option String := none
  optional_components : List String := ["ANACONDA"]
  install_component_gateway : Bool := true
  uri : Option String := none
  env : Option (List (String × String)) := none
  arguments : Option String := none
  artifact_bucket : String := "moz-fx-data-prod-airflow-dataproc-artifacts"
  job_name : Option String := none
  aws_conn_id : Option String := none
  gcp_conn_id : String := "google_cloud_airflow_dataproc"
deriving Repr, DecidableEq

/-- Model of `moz_dataproc_pyspark_runner` (lines 105-228): validates
`cluster_name`/`python_driver_code` (line 192), then assembles the DAG
`create >> run >> delete`. -/
def moz_dataproc_pyspark_runner (p : PySparkRunnerParams) (ext : Ext) :
    Except String Workflow :=
  match p.cluster_name, p.python_driver_code with
  | some cn, some pdc =>
    let helper : DataProcHelper :=
      { cluster_name := p.cluster_name
        num_workers := p.num_workers
        image_version := p.image_version
        zone := p.zone
        idle_delete_ttl := p.idle_delete_ttl
        auto_delete_ttl := p.auto_delete_ttl
        master_machine_type := p.master_machine_type
        worker_machine_type := p.worker_machine_type
        num_preemptible_workers := p.num_preemptible_workers
        service_account := p.service_account
        optional_components := p.optional_components
        install_component_gateway := p.install_component_gateway
        artifact_bucket := p.artifact_bucket
        aws_conn_id := p.aws_conn_id
        gcp_conn_id := p.gcp_conn_id }
    let dagName := pyFormatOpt p.parent_dag_name ++ "." ++ p.dag_name
    let create := helper.create_cluster ext
    let run : PySparkTask :=
      { task_id := "run_dataproc_pyspark"
        job_name := p.job_name
        cluster_name := cn
        main := pdc
        arguments := p.py_args
        gcp_conn_id := p.gcp_conn_id }
    let del := helper.delete_cluster ext
    .ok { dag_name := dagName
          default_args := p.default_args
          tasks := [.create create, .runPySpark run, .delete del]
          edges := [(create.task_id, run.task_id), (run.task_id, del.task_id)] }
  | _, _ => .error "Please specify cluster_name and/or python_driver_code."

/-- Model of `moz_dataproc_jar_runner` (lines 232-339): validates
`cluster_name`/`jar_urls`/`main_class` (line 300), then assembles the DAG
`create >> run >> delete`. -/
def moz_dataproc_jar_runner (p : JarRunnerParams) (ext : Ext) :
    Except String Workflow :=
  match p.cluster_name, p.jar_urls, p.main_class with
  | some cn, some jars, some mc =>
    let helper : DataProcHelper :=
      { cluster_name := p.cluster_name
        num_workers := p.num_workers
        image_version := p.image_version
        zone := p.zone
        idle_delete_ttl := p.idle_delete_ttl
        auto_delete_ttl := p.auto_delete_ttl
        master_machine_type := p.master_machine_type
        worker_machine_type := p.worker_machine_type
        num_preemptible_workers := p.num_preemptible_workers
        service_account := p.service_account
        optional_components := p.optional_components
        install_component_gateway := p.install_component_gateway
        artifact_bucket := p.artifact_bucket
        aws_conn_id := p.aws_conn_id
        gcp_conn_id := p.gcp_conn_id }
    let dagName := pyFormatOpt p.parent_dag_name ++ "." ++ p.dag_name
    let create := helper.create_cluster ext
    let run : SparkTask :=
      { cluster_name := cn
        task_id := "run_jar_on_dataproc"
        job_name := p.job_name
        dataproc_spark_jars := jars
        main_class := mc
        arguments := p.jar_args
        gcp_conn_id := p.gcp_conn_id }
    let del := helper.delete_cluster ext
    .ok { dag_name := dagName
          default_args := p.default_args
          tasks := [.create create, .runSpark run, .delete del]
          edges := [(create.task_id, run.task_id), (run.task_id, del.task_id)] }
  | _, _, _ => .error "Please specify cluster_name, jar_urls, and/or main_class."

/-- Model of `moz_dataproc_scriptrunner` (lines 347-477): validates
`job_name`/`uri`/`cluster_name` (line 424), flattens `env`, assembles the
fixed script-runner jar invocation and the DAG `create >> run >> delete`. -/
def moz_dataproc_scriptrunner (p : ScriptRunnerParams) (ext : Ext) :
    Except String Workflow :=
  match p.job_name, p.uri, p.cluster_name with
  | some jn, some u, some cn =>
    let helper : DataProcHelper :=
      { cluster_name := p.cluster_name
        num_workers := p.num_workers
        image_version := p.image_version
        zone := p.zone
        idle_delete_ttl := p.idle_delete_ttl
        auto_delete_ttl := p.auto_delete_ttl
        master_machine_type := p.master_machine_type
        worker_machine_type := p.worker_machine_type
        num_preemptible_workers := p.num_preemptible_workers
        service_account := p.service_account
        optional_components := p.optional_components
        install_component_gateway := p.install_component_gateway
        artifact_bucket := p.artifact_bucket
        aws_conn_id := p.aws_conn_id
        gcp_conn_id := p.gcp_conn_id }
    let dagName := pyFormatOpt p.parent_dag_name ++ "." ++ p.dag_name
    let environment := _format_envvar p.env
    let jar_url := "gs://" ++ p.artifact_bucket ++ "/bin/script-runner.jar"
    let args :=
      ["gs://" ++ p.artifact_bucket ++ "/bootstrap/airflow_gcp.sh",
       "--job-name", jn,
       "--uri", u,
       "--environment", environment] ++
      (if strTruthy p.arguments then ["--arguments", p.arguments.getD ""] else [])
    let create := helper.create_cluster ext
    let run : SparkTask :=
      { cluster_name := cn
        task_id := "run_script_on_dataproc"
        job_name := p.job_name
        dataproc_spark_jars := [jar_url]
        main_class := "com.amazon.elasticmapreduce.scriptrunner.ScriptRunner"
        arguments := some args
        gcp_conn_id := p.gcp_conn_id }
    let del := helper.delete_cluster ext
    .ok { dag_name := dagName
          default_args := p.default_args
          tasks := [.create create, .runSpark run, .delete del]
          edges := [(create.task_id, run.task_id), (run.task_id, del.task_id)] }
  | _, _, _ => .error "Please specify job_name, uri, and cluster_name."

/-- Arguments of the (first) spark run task of a workflow, when present. -/
def Workflow.sparkRunArgs (w : Workflow) : Option (List String) :=
  w.tasks.findSome? fun t =>
    match t with
    | .runSpark s => s.arguments
    | _ => none

/-- The (first) spark run task of a workflow, when present. -/
def Workflow.sparkRunTask (w : Workflow) : Option SparkTask :=
  w.tasks.findSome? fun t =>
    match t with
    | .runSpark s => some s
    | _ => none

/-- A junk workflow used as the default of `okValue` on the error branch. -/
def emptyWorkflow : Workflow :=
  { dag_name := "", default_args := none, tasks := [], edges := [] }

/-- Extracts the workflow of a successful build (junk on the error branch);
used to phrase closed corollaries about concrete successful builds. -/
def okValue : Except String Workflow → Workflow
  | .ok w => w
  | .error _ => emptyWorkflow

/-- A concrete external world: every credential lookup yields an all-`None`
triple and every GCP connection resolves to a fixed project id. -/
def extDefault : Ext :=
  { credStore := fun _ => { access_key := none, secret_key := none, token := none }
    projectOf := fun _ => "test-project" }

/-- A concrete external world whose credential store returns an access key
and a secret key but no session token. -/
def extKS : Ext :=
  { credStore := fun _ => { access_key := some "AK", secret_key := some "SK", token := none }
    projectOf := fun _ => "test-project" }

/-- Concrete valid parameters for the pyspark builder. -/
def pyParamsW : PySparkRunnerParams :=
  { cluster_name := some "c", python_driver_code := some "gs://b/d.py",
    job_name := some "jobP" }

/-- Concrete valid parameters for the jar builder. -/
def jarParamsW : JarRunnerParams :=
  { cluster_name := some "c", jar_urls := some ["gs://b/x.jar"],
    main_class := some "com.example.Main", job_name := some "jobJ" }

/-- Concrete valid parameters for the script builder, matching the worked
example of the spec. -/
def scrParamsW : ScriptRunnerParams :=
  { cluster_name := some "c", job_name := some "J", uri := some "gs://b/s.py",
    env := some [("k", "v")], arguments := some "-d 1" }

/-- Concrete jar-builder parameters whose `jar_urls` is the empty list. -/
def jarParamsEmpty : JarRunnerParams :=
  { cluster_name := some "c", jar_urls := some [],
    main_class := some "com.example.Main", job_name := some "jobJ" }

/-- A concrete helper with an AWS connection id set. -/
def helperAws : DataProcHelper :=
  { cluster_name := some "c", num_workers := 2, image_version := "1.4",
    zone := "us-west1-b", idle_delete_ttl := "14400", auto_delete_ttl := "28800",
    master_machine_type := "n1-standard-8", worker_machine_type := "n1-standard-4",
    num_preemptible_workers := 0, service_account := none,
    artifact_bucket := "moz-fx-data-prod-airflow-dataproc-artifacts",
    optional_components := ["ANACONDA"], install_component_gateway := true,
    aws_conn_id := some "aws_dev", gcp_conn_id := "google_cloud_airflow_dataproc" }

/-- A concrete helper with no AWS connection id. -/
def helperNoAws : DataProcHelper :=
  { helperAws with aws_conn_id := none }

/-- A concrete helper with no cluster name and an empty artifact bucket. -/
def helperMissing : DataProcHelper :=
  { helperAws with cluster_name := none, artifact_bucket := "", aws_conn_id := none }

/-- C5: environment flattening is deterministic in mapping order: a first
entry contributes its `key=value` rendering followed, when more entries
remain, by a single space and the flattening of the rest; the singleton
mapping from the spec flattens to `date=20200101`, and the empty mapping
(or an absent one) flattens to the empty string. -/
theorem format_envvar_deterministic :
    (∀ k v rest, _format_envvar (some ((k, v) :: rest)) =
      k ++ "=" ++ v ++
        (if rest = [] then "" else " " ++ _format_envvar (some rest))) ∧
    _format_envvar (some [("date", "20200101")]) = "date=20200101" ∧
    _format_envvar (some []) = "" ∧
    _format_envvar none = "" := by
  refine ⟨fun k v rest => ?_, by decide, rfl, rfl⟩
  cases rest with
  | nil => simp [_format_envvar, pyJoin]
  | cons hd tl =>
    simp only [_format_envvar, Option.getD_some, List.map_cons, pyJoin,
      List.cons_ne_self, if_neg, reduceIte, String.append_assoc]
    simp

/-- C10: because the presence of the free-form argument string is tested by
Python truthiness, building with `arguments=""` produces exactly the same
workflow as building with `arguments=None`: the `--arguments` pair is
dropped in both cases. -/
theorem scriptrunner_empty_arguments_eq_none (p : ScriptRunnerParams) (ext : Ext) :
    moz_dataproc_scriptrunner { p with arguments := some "" } ext =
      moz_dataproc_scriptrunner { p with arguments := none } ext := by
  cases hj : p.job_name <;> cases hu : p.uri <;> cases hc : p.cluster_name <;>
    simp [moz_dataproc_scriptrunner, hj, hu, hc, strTruthy]

/-- C8 (amended): the cluster-create operation performs no validation at
all: for every helper state, including one with a missing cluster name or an
empty artifact bucket, it unconditionally produces a create descriptor that
carries the helper's cluster name verbatim and an init-action URI derived
from the artifact bucket verbatim. -/
theorem create_cluster_no_validation (h : DataProcHelper) (ext : Ext) :
    (h.create_cluster ext).task_id = "create_dataproc_cluster" ∧
    (h.create_cluster ext).cluster_name = h.cluster_name ∧
    (h.create_cluster ext).init_actions_uris =
      ["gs://" ++ h.artifact_bucket ++ "/bootstrap/dataproc_init.sh"] := by
  refine ⟨rfl, rfl, rfl⟩

/-- C8 (counterexample): with the cluster name absent and the artifact
bucket empty, the cluster-create operation does not fail: it still produces
a create descriptor (with the cluster name missing in it), so no
`ConfigurationError` validation of those fields happens here. -/
theorem create_cluster_missing_fields_still_builds :
    (helperMissing.create_cluster extDefault).task_id = "create_dataproc_cluster" ∧
    (helperMissing.create_cluster extDefault).cluster_name = none ∧
    (helperMissing.create_cluster extDefault).init_actions_uris =
      ["gs:///bootstrap/dataproc_init.sh"] := by
  refine ⟨rfl, rfl, by decide⟩

/-- C7 (amended): the jar builder raises its configuration error exactly
when `cluster_name`, `jar_urls`, or `main_class` is `None`; in particular an
empty `jar_urls` list is not `None`, passes the check, and yields a
workflow. -/
theorem jar_runner_error_iff_none (p : JarRunnerParams) (ext : Ext) :
    (moz_dataproc_jar_runner p ext).isOk = false ↔
      (p.cluster_name = none ∨ p.jar_urls = none ∨ p.main_class = none) := by
  cases hc : p.cluster_name <;> cases hju : p.jar_urls <;> cases hm : p.main_class <;>
    simp [moz_dataproc_jar_runner, hc, hju, hm, Except.isOk, Except.toBool]

/-- C7 (counterexample): invoking the jar builder with `jar_urls = []` (and
the other required fields present) does not raise: the build succeeds, so
the claimed non-emptiness requirement is not enforced by the code. -/
theorem jar_runner_empty_jars_builds :
    (moz_dataproc_jar_runner jarParamsEmpty extDefault).isOk = true ∧
    (okValue (moz_dataproc_jar_runner jarParamsEmpty extDefault)).sparkRunTask.map
      SparkTask.dataproc_spark_jars = some [] := by
  refine ⟨rfl, rfl⟩

/-- Concrete valid script-builder parameters with no free-form arguments. -/
def scrParamsNoArgs : ScriptRunnerParams :=
  { scrParamsW with arguments := none }

/-- C3: for each of the three builders, omitting any required field makes
the build return the configuration error for every external world — so the
failure is decided before and independently of any external call — and no
workflow value is produced. -/
theorem builders_missing_required_fields_error :
    (∀ (p : PySparkRunnerParams) (ext : Ext),
      p.cluster_name = none ∨ p.python_driver_code = none →
      moz_dataproc_pyspark_runner p ext =
        .error "Please specify cluster_name and/or python_driver_code.") ∧
    (∀ (p : JarRunnerParams) (ext : Ext),
      p.cluster_name = none ∨ p.jar_urls = none ∨ p.main_class = none →
      moz_dataproc_jar_runner p ext =
        .error "Please specify cluster_name, jar_urls, and/or main_class.") ∧
    (∀ (p : ScriptRunnerParams) (ext : Ext),
      p.job_name = none ∨ p.uri = none ∨ p.cluster_name = none →
      moz_dataproc_scriptrunner p ext =
        .error "Please specify job_name, uri, and cluster_name.") := by
  refine ⟨fun p ext h => ?_, fun p ext h => ?_, fun p ext h => ?_⟩
  · cases hc : p.cluster_name <;> cases hd : p.python_driver_code <;>
      simp [moz_dataproc_pyspark_runner, hc, hd]
    simp [hc, hd] at h
  · cases hc : p.cluster_name <;> cases hju : p.jar_urls <;>
      cases hm : p.main_class <;>
      simp [moz_dataproc_jar_runner, hc, hju, hm]
    simp [hc, hju, hm] at h
  · cases hj : p.job_name <;> cases hu : p.uri <;> cases hc : p.cluster_name <;>
      simp [moz_dataproc_scriptrunner, hj, hu, hc]
    simp [hj, hu, hc] at h

/-- C3 (witness): invoking each builder with all-default parameters (every
required field absent) yields exactly the corresponding configuration
error. -/
theorem builders_missing_required_fields_error_witness :
    moz_dataproc_pyspark_runner {} extDefault =
      .error "Please specify cluster_name and/or python_driver_code." ∧
    moz_dataproc_jar_runner {} extDefault =
      .error "Please specify cluster_name, jar_urls, and/or main_class." ∧
    moz_dataproc_scriptrunner {} extDefault =
      .error "Please specify job_name, uri, and cluster_name." :=
  ⟨builders_missing_required_fields_error.1 {} extDefault (Or.inl rfl),
   builders_missing_required_fields_error.2.1 {} extDefault (Or.inl rfl),
   builders_missing_required_fields_error.2.2 {} extDefault (Or.inl rfl)⟩

/-- C1: with job name J, uri gs://b/s.py and the mapping k to v, the script
builder's run-task argument list is exactly the bootstrap-script path
followed by the job-name, uri and environment flag pairs, plus the
arguments flag pair when arguments is the string given, and exactly that
list minus its last two elements when arguments is None. -/
theorem scriptrunner_argument_assembly (p : ScriptRunnerParams) (ext : Ext)
    (hj : p.job_name = some "J") (hu : p.uri = some "gs://b/s.py")
    (he : p.env = some [("k", "v")]) (hc : p.cluster_name.isSome = true) :
    (p.arguments = some "-d 1" →
      (moz_dataproc_scriptrunner p ext).isOk = true ∧
      (okValue (moz_dataproc_scriptrunner p ext)).sparkRunArgs = some
        ["gs://" ++ p.artifact_bucket ++ "/bootstrap/airflow_gcp.sh",
         "--job-name", "J", "--uri", "gs://b/s.py",
         "--environment", "k=v", "--arguments", "-d 1"]) ∧
    (p.arguments = none →
      (moz_dataproc_scriptrunner p ext).isOk = true ∧
      (okValue (moz_dataproc_scriptrunner p ext)).sparkRunArgs = some
        ["gs://" ++ p.artifact_bucket ++ "/bootstrap/airflow_gcp.sh",
         "--job-name", "J", "--uri", "gs://b/s.py",
         "--environment", "k=v"]) := by
  obtain ⟨cn, hcn⟩ := Option.isSome_iff_exists.mp hc
  constructor <;> intro ha <;> constructor <;>
    simp [moz_dataproc_scriptrunner, hj, hu, hcn, ha, he, strTruthy,
      _format_envvar, pyJoin, okValue, Except.isOk, Except.toBool,
      Workflow.sparkRunArgs, List.findSome?]

/-- C1 (witness): the concrete invocation from the spec example, once with
the argument string present and once with it absent. -/
theorem scriptrunner_argument_assembly_witness :
    ((moz_dataproc_scriptrunner scrParamsW extDefault).isOk = true ∧
      (okValue (moz_dataproc_scriptrunner scrParamsW extDefault)).sparkRunArgs = some
        ["gs://" ++ scrParamsW.artifact_bucket ++ "/bootstrap/airflow_gcp.sh",
         "--job-name", "J", "--uri", "gs://b/s.py",
         "--environment", "k=v", "--arguments", "-d 1"]) ∧
    ((moz_dataproc_scriptrunner scrParamsNoArgs extDefault).isOk = true ∧
      (okValue (moz_dataproc_scriptrunner scrParamsNoArgs extDefault)).sparkRunArgs = some
        ["gs://" ++ scrParamsNoArgs.artifact_bucket ++ "/bootstrap/airflow_gcp.sh",
         "--job-name", "J", "--uri", "gs://b/s.py",
         "--environment", "k=v"]) :=
  ⟨(scriptrunner_argument_assembly scrParamsW extDefault rfl rfl rfl rfl).1 rfl,
   (scriptrunner_argument_assembly scrParamsNoArgs extDefault rfl rfl rfl rfl).2 rfl⟩

/-- C6: for every successful invocation of the script builder, the run task
submits exactly the fixed script-runner jar under the artifact bucket with
the fixed ScriptRunner entrypoint class, and its first argument is always
the fixed bootstrap-script path — independently of the target uri. -/
theorem scriptrunner_fixed_jar (p : ScriptRunnerParams) (ext : Ext)
    (w : Workflow) (hw : moz_dataproc_scriptrunner p ext = .ok w) :
    ∃ t, w.sparkRunTask = some t ∧
      t.dataproc_spark_jars =
        ["gs://" ++ p.artifact_bucket ++ "/bin/script-runner.jar"] ∧
      t.main_class = "com.amazon.elasticmapreduce.scriptrunner.ScriptRunner" ∧
      ∃ rest, t.arguments =
        some (("gs://" ++ p.artifact_bucket ++ "/bootstrap/airflow_gcp.sh") :: rest) := by
  cases hj : p.job_name <;> cases hu : p.uri <;> cases hc : p.cluster_name <;>
    simp [moz_dataproc_scriptrunner, hj, hu, hc] at hw
  subst hw
  exact ⟨_, rfl, rfl, rfl, _, rfl⟩

/-- C6 (witness): the fixed jar, entrypoint class and bootstrap first
argument of the concrete successful invocation from the spec example. -/
theorem scriptrunner_fixed_jar_witness :
    ∃ t, (okValue (moz_dataproc_scriptrunner scrParamsW extDefault)).sparkRunTask = some t ∧
      t.dataproc_spark_jars =
        ["gs://" ++ scrParamsW.artifact_bucket ++ "/bin/script-runner.jar"] ∧
      t.main_class = "com.amazon.elasticmapreduce.scriptrunner.ScriptRunner" ∧
      ∃ rest, t.arguments =
        some (("gs://" ++ scrParamsW.artifact_bucket ++ "/bootstrap/airflow_gcp.sh") :: rest) :=
  scriptrunner_fixed_jar scrParamsW extDefault
    (okValue (moz_dataproc_scriptrunner scrParamsW extDefault)) rfl

/-- C2: every successful build, of any of the three builders, is a workflow
of exactly three tasks create, run, delete in that order, whose edge list
makes the create task the sole predecessor of the run task, the run task
the sole predecessor of the delete task, and gives the create task no
predecessor. -/
theorem workflow_three_chain (pp : PySparkRunnerParams) (pj : JarRunnerParams)
    (ps : ScriptRunnerParams) (ext : Ext) :
    (∀ w, moz_dataproc_pyspark_runner pp ext = .ok w →
      (∃ c r d, w.tasks = [.create c, .runPySpark r, .delete d] ∧
        c.task_id = "create_dataproc_cluster" ∧
        r.task_id = "run_dataproc_pyspark" ∧
        d.task_id = "delete_dataproc_cluster") ∧
      w.predecessors "run_dataproc_pyspark" = ["create_dataproc_cluster"] ∧
      w.predecessors "delete_dataproc_cluster" = ["run_dataproc_pyspark"] ∧
      w.predecessors "create_dataproc_cluster" = []) ∧
    (∀ w, moz_dataproc_jar_runner pj ext = .ok w →
      (∃ c r d, w.tasks = [.create c, .runSpark r, .delete d] ∧
        c.task_id = "create_dataproc_cluster" ∧
        r.task_id = "run_jar_on_dataproc" ∧
        d.task_id = "delete_dataproc_cluster") ∧
      w.predecessors "run_jar_on_dataproc" = ["create_dataproc_cluster"] ∧
      w.predecessors "delete_dataproc_cluster" = ["run_jar_on_dataproc"] ∧
      w.predecessors "create_dataproc_cluster" = []) ∧
    (∀ w, moz_dataproc_scriptrunner ps ext = .ok w →
      (∃ c r d, w.tasks = [.create c, .runSpark r, .delete d] ∧
        c.task_id = "create_dataproc_cluster" ∧
        r.task_id = "run_script_on_dataproc" ∧
        d.task_id = "delete_dataproc_cluster") ∧
      w.predecessors "run_script_on_dataproc" = ["create_dataproc_cluster"] ∧
      w.predecessors "delete_dataproc_cluster" = ["run_script_on_dataproc"] ∧
      w.predecessors "create_dataproc_cluster" = []) := by
  refine ⟨fun w hw => ?_, fun w hw => ?_, fun w hw => ?_⟩
  · cases hc : pp.cluster_name <;> cases hd : pp.python_driver_code <;>
      simp [moz_dataproc_pyspark_runner, hc, hd] at hw
    subst hw
    exact ⟨⟨_, _, _, rfl, rfl, rfl, rfl⟩, rfl, rfl, rfl⟩
  · cases hc : pj.cluster_name <;> cases hju : pj.jar_urls <;>
      cases hm : pj.main_class <;>
      simp [moz_dataproc_jar_runner, hc, hju, hm] at hw
    subst hw
    exact ⟨⟨_, _, _, rfl, rfl, rfl, rfl⟩, rfl, rfl, rfl⟩
  · cases hj : ps.job_name <;> cases hu : ps.uri <;> cases hc : ps.cluster_name <;>
      simp [moz_dataproc_scriptrunner, hj, hu, hc] at hw
    subst hw
    exact ⟨⟨_, _, _, rfl, rfl, rfl, rfl⟩, rfl, rfl, rfl⟩

/-- C2 (witness): the three-task chain of one concrete successful build of
each of the three builders. -/
theorem workflow_three_chain_witness :
    (okValue (moz_dataproc_pyspark_runner pyParamsW extDefault)).predecessors
        "run_dataproc_pyspark" = ["create_dataproc_cluster"] ∧
    (okValue (moz_dataproc_jar_runner jarParamsW extDefault)).predecessors
        "run_jar_on_dataproc" = ["create_dataproc_cluster"] ∧
    (okValue (moz_dataproc_scriptrunner scrParamsW extDefault)).predecessors
        "delete_dataproc_cluster" = ["run_script_on_dataproc"] := by
  have h := workflow_three_chain pyParamsW jarParamsW scrParamsW extDefault
  exact ⟨(h.1 _ rfl).2.1, (h.2.1 _ rfl).2.1, (h.2.2 _ rfl).2.2.1⟩

/-- C4: when the auxiliary credential reference is present (and truthy) the
create descriptor's properties are obtained from the looked-up triple by
injecting each non-None component under its fs.s3a key and skipping each
None component — in particular a (key, secret, None) triple yields exactly
the access-key and secret-key entries and no session-token entry — and when
no credential reference is supplied the properties mapping is empty. -/
theorem create_cluster_credential_injection (h : DataProcHelper) (ext : Ext) :
    (∀ cid k s, h.aws_conn_id = some cid → cid ≠ "" →
      ext.credStore cid =
        { access_key := some k, secret_key := some s, token := none } →
      (h.create_cluster ext).properties =
        [("core:fs.s3a.access.key", k), ("core:fs.s3a.secret.key", s)]) ∧
    (∀ cid v, h.aws_conn_id = some cid → cid ≠ "" →
      ((("core:fs.s3a.access.key", v) ∈ (h.create_cluster ext).properties ↔
          (ext.credStore cid).access_key = some v) ∧
       (("core:fs.s3a.secret.key", v) ∈ (h.create_cluster ext).properties ↔
          (ext.credStore cid).secret_key = some v) ∧
       (("core:fs.s3a.session.token", v) ∈ (h.create_cluster ext).properties ↔
          (ext.credStore cid).token = some v))) ∧
    (h.aws_conn_id = none → (h.create_cluster ext).properties = []) := by
  refine ⟨fun cid k s hconn hne hcred => ?_, fun cid v hconn hne => ?_,
    fun hconn => ?_⟩
  · simp [DataProcHelper.create_cluster, hconn, strTruthy, hne, s3aProperties,
      hcred]
  · rcases hcs : ext.credStore cid with ⟨a, sk, tk⟩
    cases a <;> cases sk <;> cases tk <;>
      simp [DataProcHelper.create_cluster, hconn, strTruthy, hne,
        s3aProperties, hcs, eq_comm]
  · simp [DataProcHelper.create_cluster, hconn, strTruthy]

/-- C4 (witness): a concrete helper with an AWS connection against a store
returning (AK, SK, None) yields exactly the two fs.s3a entries, the
session-token membership matches the looked-up None token, and a helper
without a connection yields no properties. -/
theorem create_cluster_credential_injection_witness :
    (helperAws.create_cluster extKS).properties =
      [("core:fs.s3a.access.key", "AK"), ("core:fs.s3a.secret.key", "SK")] ∧
    (("core:fs.s3a.session.token", "T") ∈ (helperAws.create_cluster extKS).properties ↔
      (extKS.credStore "aws_dev").token = some "T") ∧
    (helperNoAws.create_cluster extDefault).properties = [] :=
  ⟨(create_cluster_credential_injection helperAws extKS).1 "aws_dev" "AK" "SK"
      rfl (by decide) rfl,
   ((create_cluster_credential_injection helperAws extKS).2.1 "aws_dev" "T"
      rfl (by decide)).2.2,
   (create_cluster_credential_injection helperNoAws extDefault).2.2 rfl⟩

end Dataproc
